import Mathlib

/-!
Verification of `scripts/analyze-har.py`: a HAR (HTTP Archive) analysis
script that categorizes network entries into JavaScript / CSS / Font /
Google-Fonts buckets, accumulates a total size, sorts the first three
buckets by size descending, prints a fixed-width report, and finally
prints page-load metrics from `log.pages[0].pageTimings`.

The embedding mirrors the Python source.  JSON objects become structures
with `Option` fields for keys read with `.get(...)` (optional), and plain
fields for keys read with `[...]` (required; a missing required key is a
run-time `KeyError` / `IndexError`, modelled in the report runner).
Python `int` sizes become `Int` (they may be negative in HAR files).
String operations (`in`, `split('/')`, slicing, format padding) are
modelled on the character list of the string, matching Python's
code-point semantics.  The float rendering of the size column
(`{size/1024:8.1f}`) is kept structurally: a printed row stores its
padded name field and its raw integer size, since no property below
depends on the decimal text of the number.
-/

/-- The `content` object of a response; both keys are read with `.get`. -/
structure Content where
  mimeType : Option String
  size : Option Int
deriving DecidableEq, Repr

/-- The `response` object: `bodySize` and `content` are read with `.get`. -/
structure Response where
  bodySize : Option Int
  content : Option Content
deriving DecidableEq, Repr

/-- The `request` object: `url` is a required key. -/
structure Request where
  url : String
deriving DecidableEq, Repr

/-- One entry of `log.entries`: `request` and `response` are required. -/
structure Entry where
  request : Request
  response : Response
deriving DecidableEq, Repr

/-- The `pageTimings` object; both fields are read with `.get`. -/
structure PageTimings where
  onContentLoad : Option Int
  onLoad : Option Int
deriving DecidableEq, Repr

/-- One element of `log.pages`.  `pageTimings` is accessed with
`page['pageTimings']` in the source, i.e. it is a required key whose
absence raises a `KeyError`; we model presence with an `Option` and let
the report runner fail when it is `none`. -/
structure Page where
  pageTimings : Option PageTimings
deriving DecidableEq, Repr

/-- The `log` object with its required keys `entries` and `pages`
(`pages` is only dereferenced at index 0 in the metrics section). -/
structure Log where
  entries : List Entry
  pages : List Page
deriving DecidableEq, Repr

/-- A parsed HAR document (`data['log']`). -/
structure Har where
  log : Log
deriving DecidableEq, Repr

/-- Python `needle is a prefix of hay` on character lists. -/
def prefixMatch : List Char → List Char → Bool
  | [], _ => true
  | _ :: _, [] => false
  | a :: as, b :: bs => a = b && prefixMatch as bs

/-- Python substring containment `needle in hay` on character lists:
true iff `needle` occurs contiguously in `hay`. -/
def containsList (hay needle : List Char) : Bool :=
  match hay with
  | [] => needle.isEmpty
  | _ :: t => prefixMatch needle hay || containsList t needle

/-- Python `needle in hay` for strings. -/
def containsSub (hay needle : String) : Bool :=
  containsList hay.data needle.data

/-- Python `s.split('/')`: split on every `'/'`, keeping empty pieces. -/
def splitOnSlash : List Char → List (List Char)
  | [] => [[]]
  | c :: cs =>
    match splitOnSlash cs with
    | [] => [[]]
    | h :: t => if c = '/' then [] :: h :: t else (c :: h) :: t

/-- Python slice `s[:n]` (truncate to the first `n` code points). -/
def truncate (n : Nat) (s : String) : String :=
  String.mk (s.data.take n)

/-- Source line 34/36/38: `url.split('/')[-1][:50]` — the last
slash-separated component of the URL, truncated to 50 characters. -/
def fileName (url : String) : String :=
  String.mk (((splitOnSlash url.data).getLastD []).take 50)

/-- Source line 24: `mime_type = content.get('mimeType', '')` where
`content = entry['response'].get('content', {})`. -/
def mimeOf (e : Entry) : String :=
  match e.response.content with
  | none => ""
  | some c => c.mimeType.getD ""

/-- Source line 28: `content.get('size', 0)`. -/
def contentSize (e : Entry) : Int :=
  match e.response.content with
  | none => 0
  | some c => c.size.getD 0

/-- Source lines 22 and 26-28: `size = entry['response'].get('bodySize', 0)`,
then `if size < 0: size = content.get('size', 0)`. -/
def recordedSize (e : Entry) : Int :=
  let size := e.response.bodySize.getD 0
  if size < 0 then contentSize e else size

/-- Source line 33: `'.js' in url or 'javascript' in mime_type`. -/
def jsPred (e : Entry) : Bool :=
  containsSub e.request.url ".js" || containsSub (mimeOf e) "javascript"

/-- Source line 35: `'.css' in url or 'text/css' in mime_type`. -/
def cssPred (e : Entry) : Bool :=
  containsSub e.request.url ".css" || containsSub (mimeOf e) "text/css"

/-- Source line 37: `any(ext in url for ext in ['.ttf', '.woff', '.woff2', '.otf'])`. -/
def fontPred (e : Entry) : Bool :=
  containsSub e.request.url ".ttf" || containsSub e.request.url ".woff" ||
    containsSub e.request.url ".woff2" || containsSub e.request.url ".otf"

/-- Source line 39: `'fonts.googleapis.com' in url or 'fonts.gstatic.com' in url`. -/
def gfPred (e : Entry) : Bool :=
  containsSub e.request.url "fonts.googleapis.com" ||
    containsSub e.request.url "fonts.gstatic.com"

/-- The pair appended to the JavaScript/CSS/Font buckets
(source lines 34, 36, 38): `(url.split('/')[-1][:50], size)`. -/
def bucketItem (e : Entry) : String × Int :=
  (fileName e.request.url, recordedSize e)

/-- The pair appended to the Google-Fonts bucket (source line 40):
`(url[:80], size)`. -/
def gfBucketItem (e : Entry) : String × Int :=
  (truncate 80 e.request.url, recordedSize e)

/-- The mutable state of the categorization loop (source lines 13-18). -/
structure AnalysisState where
  js_files : List (String × Int)
  css_files : List (String × Int)
  font_files : List (String × Int)
  google_fonts : List (String × Int)
  total_size : Int
deriving DecidableEq, Repr

/-- The body of the loop over `entries` (source lines 20-40): add the
entry's size to the running total, then run the `if/elif` categorization
chain, appending to at most one bucket. -/
def processEntry (st : AnalysisState) (e : Entry) : AnalysisState :=
  let st1 := { st with total_size := st.total_size + recordedSize e }
  if jsPred e then { st1 with js_files := st1.js_files ++ [bucketItem e] }
  else if cssPred e then { st1 with css_files := st1.css_files ++ [bucketItem e] }
  else if fontPred e then { st1 with font_files := st1.font_files ++ [bucketItem e] }
  else if gfPred e then { st1 with google_fonts := st1.google_fonts ++ [gfBucketItem e] }
  else st1

/-- The whole categorization loop, starting from empty buckets and a
zero total (source lines 13-40). -/
def collect (entries : List Entry) : AnalysisState :=
  entries.foldl processEntry ⟨[], [], [], [], 0⟩

/-- The sort order used on buckets: descending by the size component
(source lines 43-45, `key=lambda x: x[1], reverse=True`). -/
def sizeGe (a b : String × Int) : Prop := b.2 ≤ a.2

instance : DecidableRel sizeGe := fun a b => inferInstanceAs (Decidable (b.2 ≤ a.2))

instance : IsTotal (String × Int) sizeGe :=
  ⟨fun a b => (le_total b.2 a.2).imp id id⟩

instance : IsTrans (String × Int) sizeGe :=
  ⟨fun _ _ _ h1 h2 => le_trans h2 h1⟩

/-- Python's stable `list.sort(key=lambda x: x[1], reverse=True)`,
modelled as a stable sort with respect to `sizeGe`. -/
def sortBySizeDesc (l : List (String × Int)) : List (String × Int) :=
  List.insertionSort sizeGe l

/-- The analysis after the loop and the three in-place sorts
(source lines 43-45); the Google-Fonts bucket is not sorted. -/
def analyze (h : Har) : AnalysisState :=
  let st := collect h.log.entries
  { st with
    js_files := sortBySizeDesc st.js_files
    css_files := sortBySizeDesc st.css_files
    font_files := sortBySizeDesc st.font_files }

/-- Python format field `{name:w}`: left-justify, padding with spaces to
a minimum width of `w`; a longer name is printed in full. -/
def padTo (w : Nat) (s : String) : String :=
  s ++ String.mk (List.replicate (w - s.length) ' ')

/-- Sum of the size components of a bucket, as used in the section
headers (`sum(s for _, s in bucket)`). -/
def sumSizes (l : List (String × Int)) : Int :=
  (l.map (fun p => p.2)).sum

/-- Source lines 71-72: `len([f for f in font_files if '.woff2' in f[0]])`. -/
def woff2Count (fonts : List (String × Int)) : Nat :=
  (fonts.filter (fun f => containsSub f.1 ".woff2")).length

/-- Source line 72: `len([f for f in font_files if '.ttf' in f[0]])`. -/
def ttfCount (fonts : List (String × Int)) : Nat :=
  (fonts.filter (fun f => containsSub f.1 ".ttf")).length

/-- The errors the report phase of the script can raise at run time:
`data['log']['pages'][0]` on an empty list raises an index error, and
`page['pageTimings']` on a page without that key raises a key error. -/
inductive RunError where
  | indexError : RunError
  | keyError : RunError
deriving DecidableEq, Repr

/-- One printed line of the report, structurally.  `row`/`gfRow` carry
the padded name field (the `{name:45}` / `{url:75}` format field of the
source) together with the raw integer size whose `{size/1024:8.1f}`
rendering follows on the same line. -/
inductive Line where
  | banner (s : String) : Line
  | totalLine (totalSize : Int) : Line
  | sectionHeader (label : String) (count : Nat) (sumSize : Int) : Line
  | row (nameField : String) (size : Int) : Line
  | gfHeader (count : Nat) : Line
  | gfRow (urlField : String) (size : Int) : Line
  | fontFormatHeader : Line
  | countLine (label : String) (n : Nat) : Line
  | metricsHeader : Line
  | metricLine (label : String) (millis : Int) : Line
deriving DecidableEq, Repr

/-- The outcome of running `analyze_har` on a parsed document: the lines
printed to standard output, in order, and the run-time error that
interrupted the run, if any (printing is interleaved with processing, so
the lines before the failing step are already flushed). -/
structure RunOutcome where
  output : List Line
  error : Option RunError
deriving DecidableEq, Repr

/-- Every report line printed before the page-metrics section
(source lines 48-76): header banner, total size, the three sorted
bucket sections (top 10 JavaScript rows, top 5 CSS rows, all Font rows),
the conditional Google-Fonts section (first 5 rows, unsorted), and the
font-format counts. -/
def preMetricsOutput (h : Har) : List Line :=
  let a := analyze h
  [Line.banner "🔍 HAR File Performance Analysis",
   Line.banner (String.mk (List.replicate 60 '=')),
   Line.totalLine a.total_size,
   Line.sectionHeader "JavaScript Files" a.js_files.length (sumSizes a.js_files)]
  ++ (a.js_files.take 10).map (fun p => Line.row (padTo 45 p.1) p.2)
  ++ [Line.sectionHeader "CSS Files" a.css_files.length (sumSizes a.css_files)]
  ++ (a.css_files.take 5).map (fun p => Line.row (padTo 45 p.1) p.2)
  ++ [Line.sectionHeader "Font Files" a.font_files.length (sumSizes a.font_files)]
  ++ a.font_files.map (fun p => Line.row (padTo 45 p.1) p.2)
  ++ (if a.google_fonts.isEmpty then []
      else [Line.gfHeader a.google_fonts.length]
           ++ (a.google_fonts.take 5).map (fun p => Line.gfRow (padTo 75 p.1) p.2))
  ++ [Line.fontFormatHeader,
      Line.countLine "WOFF2 files" (woff2Count a.font_files),
      Line.countLine "TTF files" (ttfCount a.font_files)]

/-- The full run of `analyze_har` on a parsed document (source lines
10-85): print the size/category sections, then access
`data['log']['pages'][0]` and `page['pageTimings']`, failing with an
index error or key error respectively when they are missing, and
otherwise print the two timing lines with `.get(..., 0)` defaults. -/
def report (h : Har) : RunOutcome :=
  let out := preMetricsOutput h
  match h.log.pages with
  | [] => ⟨out, some RunError.indexError⟩
  | page :: _ =>
    match page.pageTimings with
    | none => ⟨out, some RunError.keyError⟩
    | some t =>
      ⟨out ++ [Line.metricsHeader,
               Line.metricLine "DOM Content Loaded" (t.onContentLoad.getD 0),
               Line.metricLine "Page Load Complete" (t.onLoad.getD 0)],
       none⟩

/-- The contribution of one entry to the JavaScript bucket: the `if`
branch of the categorization chain. -/
def jsItem (e : Entry) : Option (String × Int) :=
  if jsPred e then some (bucketItem e) else none

/-- The contribution of one entry to the CSS bucket: reached only when
the JavaScript branch did not fire (`elif`). -/
def cssItem (e : Entry) : Option (String × Int) :=
  if !jsPred e && cssPred e then some (bucketItem e) else none

/-- The contribution of one entry to the Font bucket: reached only when
neither the JavaScript nor the CSS branch fired (`elif`). -/
def fontItem (e : Entry) : Option (String × Int) :=
  if !jsPred e && !cssPred e && fontPred e then some (bucketItem e) else none

/-- The contribution of one entry to the Google-Fonts bucket: reached
only when none of the three primary branches fired (`elif`). -/
def gfItem (e : Entry) : Option (String × Int) :=
  if !jsPred e && !cssPred e && !fontPred e && gfPred e then some (gfBucketItem e) else none

/-- An entry whose URL matches both the JavaScript and the CSS
predicate. -/
def bothJsCssEntry : Entry :=
  { request := { url := "https://example.com/mix.css/bundle.js" },
    response := { bodySize := some 10,
                  content := some { mimeType := some "text/css", size := some 10 } } }

/-- A small JavaScript entry of size 5. -/
def jsEntryA : Entry :=
  { request := { url := "https://example.com/a.js" },
    response := { bodySize := some 5,
                  content := some { mimeType := some "application/javascript",
                                    size := some 5 } } }

/-- A small JavaScript entry of size 10. -/
def jsEntryB : Entry :=
  { request := { url := "https://example.com/b.js" },
    response := { bodySize := some 10,
                  content := some { mimeType := some "application/javascript",
                                    size := some 10 } } }

/-- A page carrying both timing fields. -/
def pageWithTimings : Page :=
  { pageTimings := some { onContentLoad := some 1200, onLoad := some 2400 } }

/-- A first HAR sample: two JavaScript entries (sizes 5 and 10), used by
witnesses. -/
def harSample1 : Har :=
  { log := { entries := [jsEntryA, jsEntryB], pages := [pageWithTimings] } }

/-- An entry with no `bodySize` key but a content size of 100. -/
def entryNoBodySize : Entry :=
  { request := { url := "https://example.com/data.bin" },
    response := { bodySize := none,
                  content := some { mimeType := some "application/octet-stream",
                                    size := some 100 } } }

/-- An entry with `bodySize` 5. -/
def entryBody5 : Entry :=
  { request := { url := "https://example.com/p.png" },
    response := { bodySize := some 5,
                  content := some { mimeType := some "image/png", size := some 7 } } }

/-- An entry whose `bodySize` is negative and whose content size is
negative too. -/
def entryNegNeg : Entry :=
  { request := { url := "https://example.com/bad.js" },
    response := { bodySize := some (-1),
                  content := some { mimeType := some "application/javascript",
                                    size := some (-50) } } }

/-- The entry of the claimed scenario: a `fonts.gstatic.com` WOFF2 URL.
Its URL matches both the Font-extension predicate and the Google-Fonts
predicate. -/
def gstaticWoff2Entry : Entry :=
  { request := { url := "https://fonts.gstatic.com/s/roboto/v1/abc.woff2" },
    response := { bodySize := some 1000,
                  content := some { mimeType := some "font/woff2",
                                    size := some 1000 } } }

/-- A HAR document holding only the claimed scenario entry. -/
def harGstatic : Har :=
  { log := { entries := [gstaticWoff2Entry], pages := [pageWithTimings] } }

/-- A JavaScript entry of recorded size 100. -/
def jsEntry100 : Entry :=
  { request := { url := "https://example.com/app.js" },
    response := { bodySize := some 100,
                  content := some { mimeType := some "application/javascript",
                                    size := some 100 } } }

/-- An uncategorized entry whose `bodySize` is negative and whose
content-size fallback is -50. -/
def uncatNegEntry : Entry :=
  { request := { url := "https://example.com/data" },
    response := { bodySize := some (-1),
                  content := some { mimeType := some "application/octet-stream",
                                    size := some (-50) } } }

/-- A HAR document mixing a JavaScript entry (size 100) with an
uncategorized entry of recorded size -50. -/
def harMixedNeg : Har :=
  { log := { entries := [jsEntry100, uncatNegEntry], pages := [pageWithTimings] } }

/-- A JavaScript entry whose file name is 55 characters long before the
collection-time slice, hence exactly 50 characters after it. -/
def longNameEntry : Entry :=
  { request := { url := "https://example.com/aaaaaaaaaaaaaaaaaaaaaaaaaaaaaaaaaaaaaaaaaaaaaaaaaab.js" },
    response := { bodySize := some 7168,
                  content := some { mimeType := some "application/javascript",
                                    size := some 7168 } } }

/-- A HAR document holding only the long-named JavaScript entry. -/
def harLongName : Har :=
  { log := { entries := [longNameEntry], pages := [pageWithTimings] } }

/-- Extracts the data of a Google-Fonts row line. -/
def gfRowData : Line → Option (String × Int)
  | Line.gfRow nf sz => some (nf, sz)
  | _ => none

/-- A HAR document with entries but an empty `log.pages` sequence. -/
def harNoPages : Har :=
  { log := { entries := [jsEntry100], pages := [] } }

/-- A HAR document whose first page has no `pageTimings` key. -/
def harNoTimings : Har :=
  { log := { entries := [jsEntry100], pages := [{ pageTimings := none }] } }

/-- An entry caught only by the Google-Fonts branch: its URL matches
neither `.js`, `.css` nor a font extension, but contains
`fonts.googleapis.com`. -/
def gfOnlyEntry : Entry :=
  { request := { url := "https://fonts.googleapis.com/icon?family=Material+Icons" },
    response := { bodySize := some 400,
                  content := some { mimeType := some "text/plain", size := some 400 } } }

/-- A HAR document holding one Google-Fonts-only entry. -/
def harGfOnly : Har :=
  { log := { entries := [gfOnlyEntry], pages := [pageWithTimings] } }

/-- Unrolling the categorization loop: each bucket is the in-order
`filterMap` of its per-entry contribution, and the total is the sum of
all recorded sizes. -/
theorem foldl_processEntry_spec (entries : List Entry) (st : AnalysisState) :
    entries.foldl processEntry st =
      { js_files := st.js_files ++ entries.filterMap jsItem,
        css_files := st.css_files ++ entries.filterMap cssItem,
        font_files := st.font_files ++ entries.filterMap fontItem,
        google_fonts := st.google_fonts ++ entries.filterMap gfItem,
        total_size := st.total_size + (entries.map recordedSize).sum } := by
  induction entries generalizing st with
  | nil => simp
  | cons e rest ih =>
    rw [List.foldl_cons, ih]
    by_cases hjs : jsPred e <;> by_cases hcss : cssPred e <;>
      by_cases hfont : fontPred e <;> by_cases hgf : gfPred e <;>
      simp [processEntry, jsItem, cssItem, fontItem, gfItem,
            hjs, hcss, hfont, hgf, add_assoc]

/-- The loop starting from the empty state. -/
theorem collect_eq (entries : List Entry) :
    collect entries =
      { js_files := entries.filterMap jsItem,
        css_files := entries.filterMap cssItem,
        font_files := entries.filterMap fontItem,
        google_fonts := entries.filterMap gfItem,
        total_size := (entries.map recordedSize).sum } := by
  simpa [collect] using foldl_processEntry_spec entries ⟨[], [], [], [], 0⟩


/-- A format field `{s:w}` pads to minimum width `w` and never shortens:
the rendered length is the maximum of the width and the name length. -/
theorem padTo_length (w : Nat) (s : String) : (padTo w s).length = max w s.length := by
  simp only [padTo, String.length_append, String.length_mk, List.length_replicate]
  omega

/-- Padding never truncates: the original string is kept whole at the
front of the rendered field. -/
theorem padTo_take (w : Nat) (s : String) :
    (padTo w s).data.take s.data.length = s.data := by
  rw [padTo, String.data_append]
  exact List.take_left s.data _

/-- A collected file name is at most 50 characters (the `[:50]` slice). -/
theorem fileName_length (url : String) : (fileName url).length ≤ 50 := by
  simp only [fileName, String.length_mk, List.length_take]
  exact min_le_left _ _

/-- A truncated string is at most `n` characters (the `[:n]` slice). -/
theorem truncate_length (n : Nat) (s : String) : (truncate n s).length ≤ n := by
  simp only [truncate, String.length_mk, List.length_take]
  exact min_le_left _ _

/-- The sort is a permutation of its input. -/
theorem sortBySizeDesc_perm (l : List (String × Int)) :
    List.Perm (sortBySizeDesc l) l :=
  List.perm_insertionSort sizeGe l

/-- The sort output is pairwise non-increasing in the size component. -/
theorem sortBySizeDesc_sorted (l : List (String × Int)) :
    List.Pairwise sizeGe (sortBySizeDesc l) :=
  List.sorted_insertionSort sizeGe l

/-- Sums of the size components are preserved by the sort. -/
theorem sumSizes_sortBySizeDesc (l : List (String × Int)) :
    sumSizes (sortBySizeDesc l) = sumSizes l :=
  List.Perm.sum_eq (List.Perm.map _ (sortBySizeDesc_perm l))

/-- Sum over an empty bucket. -/
theorem sumSizes_nil : sumSizes [] = 0 := rfl

/-- Sum over a bucket, one element at a time. -/
theorem sumSizes_cons (p : String × Int) (l : List (String × Int)) :
    sumSizes (p :: l) = p.2 + sumSizes l := by
  simp [sumSizes]

/-- Every branch of the loop body adds the entry's recorded size to the
running total (source line 30 runs before the categorization chain). -/
theorem processEntry_total (st : AnalysisState) (e : Entry) :
    (processEntry st e).total_size = st.total_size + recordedSize e := by
  by_cases hjs : jsPred e <;> by_cases hcss : cssPred e <;>
    by_cases hfont : fontPred e <;> by_cases hgf : gfPred e <;>
    simp [processEntry, hjs, hcss, hfont, hgf]

/-- Claim C7: after the per-bucket descending sorts, the printed
sequences of sizes (top 10 JavaScript rows, top 5 CSS rows, all Font
rows) are non-increasing within each bucket. -/
theorem claim_c7_sorted_buckets (h : Har) :
    List.Pairwise sizeGe ((analyze h).js_files.take 10) ∧
    List.Pairwise sizeGe ((analyze h).css_files.take 5) ∧
    List.Pairwise sizeGe (analyze h).font_files := by
  refine ⟨?_, ?_, ?_⟩
  · exact (sortBySizeDesc_sorted (collect h.log.entries).js_files).sublist
      (List.take_sublist _ _)
  · exact (sortBySizeDesc_sorted (collect h.log.entries).css_files).sublist
      (List.take_sublist _ _)
  · exact sortBySizeDesc_sorted (collect h.log.entries).font_files

/-- Witness for claim C7 at a concrete document. -/
theorem claim_c7_sorted_buckets_witness :
    List.Pairwise sizeGe ((analyze harSample1).js_files.take 10) ∧
    List.Pairwise sizeGe ((analyze harSample1).css_files.take 5) ∧
    List.Pairwise sizeGe (analyze harSample1).font_files :=
  claim_c7_sorted_buckets harSample1

/-- Claim C8: the categorization chain assigns each entry to at most one
primary bucket, with first-match priority JavaScript, then CSS, then
Font; an entry matching an earlier predicate never reaches a later
bucket, and an entry matching none of the three leaves them unchanged. -/
theorem claim_c8_first_match_priority (st : AnalysisState) (e : Entry) :
    (processEntry st e).js_files
        = st.js_files ++ (if jsPred e then [bucketItem e] else []) ∧
    (processEntry st e).css_files
        = st.css_files ++ (if !jsPred e && cssPred e then [bucketItem e] else []) ∧
    (processEntry st e).font_files
        = st.font_files ++ (if !jsPred e && !cssPred e && fontPred e then [bucketItem e] else []) := by
  by_cases hjs : jsPred e <;> by_cases hcss : cssPred e <;>
    by_cases hfont : fontPred e <;> by_cases hgf : gfPred e <;>
    simp [processEntry, hjs, hcss, hfont, hgf]

/-- Witness for claim C8: an entry matching both the JavaScript and the
CSS predicates resolves to the JavaScript bucket only. -/
theorem claim_c8_first_match_priority_witness :
    jsPred bothJsCssEntry = true ∧ cssPred bothJsCssEntry = true ∧
    (processEntry ⟨[], [], [], [], 0⟩ bothJsCssEntry).js_files = [bucketItem bothJsCssEntry] ∧
    (processEntry ⟨[], [], [], [], 0⟩ bothJsCssEntry).css_files = [] := by
  have h := claim_c8_first_match_priority ⟨[], [], [], [], 0⟩ bothJsCssEntry
  refine ⟨by decide, by decide, ?_, ?_⟩
  · rw [h.1]
    simp [show jsPred bothJsCssEntry = true by decide]
  · rw [h.2.1]
    simp [show jsPred bothJsCssEntry = true by decide]

/-- Claim C2 counterexample: when `bodySize` is absent, `.get('bodySize', 0)`
yields the default 0, which is not negative, so the content-size fallback
is never consulted: the recorded size is 0, not the content size 100. -/
theorem claim_c2_counterexample :
    entryNoBodySize.response.bodySize = none ∧
    contentSize entryNoBodySize = 100 ∧
    recordedSize entryNoBodySize = 0 ∧
    recordedSize entryNoBodySize ≠ contentSize entryNoBodySize := by decide

/-- Claim C2 amended: the recorded size equals `bodySize` when that key
is present and non-negative; the content-size fallback applies only when
`bodySize` is present and negative; when `bodySize` is absent the
recorded size is the default 0, not the content size. -/
theorem claim_c2_amended_size_rule (e : Entry) :
    (∀ b : Int, e.response.bodySize = some b → 0 ≤ b → recordedSize e = b) ∧
    (∀ b : Int, e.response.bodySize = some b → b < 0 → recordedSize e = contentSize e) ∧
    (e.response.bodySize = none → recordedSize e = 0) := by
  refine ⟨?_, ?_, ?_⟩
  · intro b hb h0
    simp [recordedSize, hb, not_lt.2 h0]
  · intro b hb hneg
    simp [recordedSize, hb, hneg]
  · intro hb
    simp [recordedSize, hb]

/-- Witness for the amended claim C2 at concrete entries: a present
non-negative `bodySize` is used as is; an absent `bodySize` yields 0. -/
theorem claim_c2_amended_size_rule_witness :
    recordedSize entryBody5 = 5 ∧ recordedSize entryNoBodySize = 0 :=
  ⟨(claim_c2_amended_size_rule entryBody5).1 5 (by decide) (by decide),
   (claim_c2_amended_size_rule entryNoBodySize).2.2 (by decide)⟩

/-- Claim C10: when `bodySize` is present and negative, the recorded
size is exactly the content descriptor's size, with no non-negativity
check: a negative fallback value is added to the running total and is
the size appended to the entry's bucket. -/
theorem claim_c10_negative_fallback (e : Entry) (b s : Int)
    (hb : e.response.bodySize = some b) (hneg : b < 0) (hs : contentSize e = s) :
    recordedSize e = s ∧
    (∀ st : AnalysisState, (processEntry st e).total_size = st.total_size + s) ∧
    (jsPred e = true → ∀ st : AnalysisState,
      (processEntry st e).js_files = st.js_files ++ [(fileName e.request.url, s)]) := by
  have hrec : recordedSize e = s := by
    simp [recordedSize, hb, hneg, hs]
  refine ⟨hrec, ?_, ?_⟩
  · intro st
    rw [processEntry_total, hrec]
  · intro hjs st
    simp [processEntry, hjs, bucketItem, hrec]

/-- Witness for claim C10: the negative content size -50 becomes the
recorded size, is added to the total, and is appended to the bucket. -/
theorem claim_c10_negative_fallback_witness :
    recordedSize entryNegNeg = -50 ∧
    (processEntry ⟨[], [], [], [], 0⟩ entryNegNeg).total_size = 0 + (-50) ∧
    (processEntry ⟨[], [], [], [], 0⟩ entryNegNeg).js_files
      = [(fileName "https://example.com/bad.js", -50)] ∧
    fileName "https://example.com/bad.js" = "bad.js" := by
  have h := claim_c10_negative_fallback entryNegNeg (-1) (-50)
    (by decide) (by decide) (by decide)
  exact ⟨h.1, h.2.1 _, h.2.2 (by decide) ⟨[], [], [], [], 0⟩, by decide⟩

/-- Claim C1 counterexample: the Google-Fonts append is an `elif` branch
of the same chain, not an independent check, so an entry matching the
Font predicate never reaches it: the claimed scenario entry lands only
in the Font bucket and the Google-Fonts bucket stays empty. -/
theorem claim_c1_counterexample :
    gfPred gstaticWoff2Entry = true ∧
    fontPred gstaticWoff2Entry = true ∧
    (collect [gstaticWoff2Entry]).font_files = [("abc.woff2", 1000)] ∧
    (collect [gstaticWoff2Entry]).google_fonts = [] := by decide

/-- Claim C1 amended: the Google-Fonts bucket receives exactly the
entries whose URL matches the Google-Fonts predicate and that were not
captured by an earlier JavaScript/CSS/Font branch; any entry matching
one of those three predicates is excluded, so a `fonts.gstatic.com`
WOFF2 URL appears only in the Font bucket. -/
theorem claim_c1_amended_gf_is_elif (h : Har) :
    (analyze h).google_fonts = h.log.entries.filterMap gfItem ∧
    ∀ e : Entry, (jsPred e || cssPred e || fontPred e) = true → gfItem e = none := by
  constructor
  · simp [analyze, collect_eq]
  · intro e he
    cases hjs : jsPred e <;> cases hcss : cssPred e <;> cases hfont : fontPred e <;>
      simp_all [gfItem]

/-- Witness for the amended claim C1 at the claimed scenario entry. -/
theorem claim_c1_amended_gf_is_elif_witness :
    (analyze harGstatic).google_fonts = [] ∧ gfItem gstaticWoff2Entry = none := by
  have h := claim_c1_amended_gf_is_elif harGstatic
  constructor
  · rw [h.1]; decide
  · exact h.2 gstaticWoff2Entry (by decide)

/-- Claim C4 counterexample: the total accumulates every recorded size,
including negative fallback sizes of uncategorized entries, so the
bucket sums can exceed the total: here 100 + 0 + 0 > 50. -/
theorem claim_c4_counterexample :
    sumSizes (analyze harMixedNeg).js_files + sumSizes (analyze harMixedNeg).css_files +
        sumSizes (analyze harMixedNeg).font_files = 100 ∧
    (analyze harMixedNeg).total_size = 50 ∧
    ¬ (sumSizes (analyze harMixedNeg).js_files + sumSizes (analyze harMixedNeg).css_files +
        sumSizes (analyze harMixedNeg).font_files ≤ (analyze harMixedNeg).total_size) := by
  decide

/-- Bucket sums are bounded by the sum of all recorded sizes as soon as
every recorded size is non-negative, because the three contribution maps
are mutually exclusive branches of one chain. -/
theorem bucketSums_le_total (l : List Entry)
    (hpos : ∀ e ∈ l, 0 ≤ recordedSize e) :
    sumSizes (l.filterMap jsItem) + sumSizes (l.filterMap cssItem) +
      sumSizes (l.filterMap fontItem) ≤ (l.map recordedSize).sum := by
  induction l with
  | nil => simp [sumSizes]
  | cons e rest ih =>
    have he : 0 ≤ recordedSize e := hpos e (List.mem_cons_self _ _)
    have hrest := ih (fun x hx => hpos x (List.mem_cons_of_mem _ hx))
    by_cases hjs : jsPred e <;> by_cases hcss : cssPred e <;> by_cases hfont : fontPred e <;>
      simp [jsItem, cssItem, fontItem, hjs, hcss, hfont, List.filterMap_cons,
            sumSizes_cons, bucketItem] <;>
      linarith

/-- Claim C4 amended: when every entry's recorded size is non-negative,
the JavaScript, CSS, and Font bucket sums together are at most the
accumulated total size; without that restriction the counterexample
above applies. -/
theorem claim_c4_amended_bucket_sums (h : Har)
    (hpos : ∀ e ∈ h.log.entries, 0 ≤ recordedSize e) :
    sumSizes (analyze h).js_files + sumSizes (analyze h).css_files +
      sumSizes (analyze h).font_files ≤ (analyze h).total_size := by
  have hs : (analyze h).total_size = ((h.log.entries).map recordedSize).sum := by
    simp [analyze, collect_eq]
  rw [hs]
  have hj : sumSizes (analyze h).js_files
      = sumSizes ((h.log.entries).filterMap jsItem) := by
    simp [analyze, collect_eq, sumSizes_sortBySizeDesc]
  have hc : sumSizes (analyze h).css_files
      = sumSizes ((h.log.entries).filterMap cssItem) := by
    simp [analyze, collect_eq, sumSizes_sortBySizeDesc]
  have hf : sumSizes (analyze h).font_files
      = sumSizes ((h.log.entries).filterMap fontItem) := by
    simp [analyze, collect_eq, sumSizes_sortBySizeDesc]
  rw [hj, hc, hf]
  exact bucketSums_le_total h.log.entries hpos

/-- Witness for the amended claim C4 at a concrete document with
non-negative sizes. -/
theorem claim_c4_amended_bucket_sums_witness :
    sumSizes (analyze harSample1).js_files + sumSizes (analyze harSample1).css_files +
      sumSizes (analyze harSample1).font_files ≤ (analyze harSample1).total_size :=
  claim_c4_amended_bucket_sums harSample1 (by decide)

/-- A contribution to a primary bucket always carries a file name of at
most 50 characters (the collection-time `[:50]` slice). -/
theorem item_name_length {e : Entry} {p : String × Int}
    (hp : jsItem e = some p ∨ cssItem e = some p ∨ fontItem e = some p) :
    p.1.length ≤ 50 := by
  have hb : p = bucketItem e := by
    rcases hp with h | h | h <;>
      [unfold jsItem at h; unfold cssItem at h; unfold fontItem at h] <;>
      (split at h <;> simp_all)
  rw [hb]
  exact fileName_length e.request.url

/-- A name held in any of the three sorted primary buckets is at most 50
characters. -/
theorem primary_bucket_name_length {h : Har} {p : String × Int}
    (hp : p ∈ (analyze h).js_files ∨ p ∈ (analyze h).css_files ∨
          p ∈ (analyze h).font_files) :
    p.1.length ≤ 50 := by
  have hstep : ∀ l : List Entry, ∀ f : Entry → Option (String × Int),
      p ∈ sortBySizeDesc (l.filterMap f) → ∃ e ∈ l, f e = some p := by
    intro l f hmem
    exact List.mem_filterMap.1 ((sortBySizeDesc_perm (l.filterMap f)).mem_iff.1 hmem)
  rcases hp with hmem | hmem | hmem
  · simp only [analyze, collect_eq] at hmem
    obtain ⟨e, _, hitem⟩ := hstep _ _ hmem
    exact item_name_length (Or.inl hitem)
  · simp only [analyze, collect_eq] at hmem
    obtain ⟨e, _, hitem⟩ := hstep _ _ hmem
    exact item_name_length (Or.inr (Or.inl hitem))
  · simp only [analyze, collect_eq] at hmem
    obtain ⟨e, _, hitem⟩ := hstep _ _ hmem
    exact item_name_length (Or.inr (Or.inr hitem))

/-- A URL held in the Google-Fonts bucket is at most 80 characters (the
collection-time `[:80]` slice). -/
theorem gf_bucket_name_length {h : Har} {p : String × Int}
    (hp : p ∈ (analyze h).google_fonts) : p.1.length ≤ 80 := by
  simp only [analyze, collect_eq] at hp
  obtain ⟨e, _, hitem⟩ := List.mem_filterMap.1 hp
  have hb : p = gfBucketItem e := by
    unfold gfItem at hitem
    split at hitem <;> simp_all
  rw [hb]
  exact truncate_length 80 e.request.url

/-- The run's output is the pre-metrics report, followed by the three
metric lines exactly when `pages[0].pageTimings` is reachable. -/
theorem report_output_split (h : Har) :
    (report h).output = preMetricsOutput h ∨
    ∃ t : PageTimings,
      (report h).output = preMetricsOutput h ++
        [Line.metricsHeader,
         Line.metricLine "DOM Content Loaded" (t.onContentLoad.getD 0),
         Line.metricLine "Page Load Complete" (t.onLoad.getD 0)] := by
  unfold report
  rcases h.log.pages with _ | ⟨⟨_ | t⟩, rest⟩
  · exact Or.inl rfl
  · exact Or.inl rfl
  · exact Or.inr ⟨t, rfl⟩

/-- Every `row` line of the run's output comes from one of the three
primary buckets, padded to width 45. -/
theorem row_mem_output {h : Har} {nf : String} {sz : Int}
    (hmem : Line.row nf sz ∈ (report h).output) :
    ∃ p : String × Int,
      (p ∈ (analyze h).js_files ∨ p ∈ (analyze h).css_files ∨
        p ∈ (analyze h).font_files) ∧ nf = padTo 45 p.1 ∧ sz = p.2 := by
  have hpre : Line.row nf sz ∈ preMetricsOutput h := by
    rcases report_output_split h with hout | ⟨t, hout⟩
    · rwa [hout] at hmem
    · rw [hout] at hmem
      simp only [List.mem_append, List.mem_cons, List.not_mem_nil, or_false] at hmem
      rcases hmem with hm | hm | hm | hm <;> simp_all
  unfold preMetricsOutput at hpre
  simp only [List.mem_append] at hpre
  rcases hpre with ((((((hA | hB) | hC) | hD) | hE) | hF) | hG) | hH
  · exact absurd hA (by simp)
  · simp only [List.mem_map] at hB
    obtain ⟨p, hp, heq⟩ := hB
    obtain ⟨h1, h2⟩ := Line.row.inj heq
    exact ⟨p, Or.inl (List.take_subset _ _ hp), h1.symm, h2.symm⟩
  · exact absurd hC (by simp)
  · simp only [List.mem_map] at hD
    obtain ⟨p, hp, heq⟩ := hD
    obtain ⟨h1, h2⟩ := Line.row.inj heq
    exact ⟨p, Or.inr (Or.inl (List.take_subset _ _ hp)), h1.symm, h2.symm⟩
  · exact absurd hE (by simp)
  · simp only [List.mem_map] at hF
    obtain ⟨p, hp, heq⟩ := hF
    obtain ⟨h1, h2⟩ := Line.row.inj heq
    exact ⟨p, Or.inr (Or.inr hp), h1.symm, h2.symm⟩
  · split at hG
    · exact absurd hG (by simp)
    · simp only [List.mem_append, List.mem_map] at hG
      rcases hG with hG | ⟨p, _, heq⟩
      · exact absurd hG (by simp)
      · exact absurd heq (by simp)
  · exact absurd hH (by simp)

/-- Every `gfRow` line of the run's output comes from the Google-Fonts
bucket, padded to width 75. -/
theorem gfRow_mem_output {h : Har} {nf : String} {sz : Int}
    (hmem : Line.gfRow nf sz ∈ (report h).output) :
    ∃ p : String × Int,
      p ∈ (analyze h).google_fonts ∧ nf = padTo 75 p.1 ∧ sz = p.2 := by
  have hpre : Line.gfRow nf sz ∈ preMetricsOutput h := by
    rcases report_output_split h with hout | ⟨t, hout⟩
    · rwa [hout] at hmem
    · rw [hout] at hmem
      simp only [List.mem_append, List.mem_cons, List.not_mem_nil, or_false] at hmem
      rcases hmem with hm | hm | hm | hm <;> simp_all
  unfold preMetricsOutput at hpre
  simp only [List.mem_append] at hpre
  rcases hpre with ((((((hA | hB) | hC) | hD) | hE) | hF) | hG) | hH
  · exact absurd hA (by simp)
  · simp only [List.mem_map] at hB
    obtain ⟨p, _, heq⟩ := hB
    exact absurd heq (by simp)
  · exact absurd hC (by simp)
  · simp only [List.mem_map] at hD
    obtain ⟨p, _, heq⟩ := hD
    exact absurd heq (by simp)
  · exact absurd hE (by simp)
  · simp only [List.mem_map] at hF
    obtain ⟨p, _, heq⟩ := hF
    exact absurd heq (by simp)
  · split at hG
    · exact absurd hG (by simp)
    · simp only [List.mem_append, List.mem_cons, List.not_mem_nil, or_false,
                 List.mem_map] at hG
      rcases hG with hG | ⟨p, hp, heq⟩
      · exact absurd hG (by simp)
      · obtain ⟨h1, h2⟩ := Line.gfRow.inj heq
        exact ⟨p, List.take_subset _ _ hp, h1.symm, h2.symm⟩
  · exact absurd hH (by simp)

/-- Claim C3 counterexample: the print-time format field `{name:45}`
only pads to a minimum width and never truncates, so a collected
50-character name is printed whole: the report of `harLongName` contains
a row whose name field is 50 characters long, exceeding the 45-character
column. -/
theorem claim_c3_counterexample :
    Line.row "aaaaaaaaaaaaaaaaaaaaaaaaaaaaaaaaaaaaaaaaaaaaaaaaaa" 7168
        ∈ (report harLongName).output ∧
    ("aaaaaaaaaaaaaaaaaaaaaaaaaaaaaaaaaaaaaaaaaaaaaaaaaa" : String).length = 50 ∧
    padTo 45 "aaaaaaaaaaaaaaaaaaaaaaaaaaaaaaaaaaaaaaaaaaaaaaaaaa"
        = "aaaaaaaaaaaaaaaaaaaaaaaaaaaaaaaaaaaaaaaaaaaaaaaaaa" ∧
    ¬ (("aaaaaaaaaaaaaaaaaaaaaaaaaaaaaaaaaaaaaaaaaaaaaaaaaa" : String).length ≤ 45) := by
  decide

/-- Claim C3 amended: a rendered name is truncated only at collection
time (50 characters for JavaScript/CSS/Font names, 80 for Google-Fonts
URLs); at print time the format field pads to a minimum width of 45
(resp. 75) and never truncates, wraps, or errors, so a printed name
field is between 45 and 50 (resp. 75 and 80) characters and always
holds the collected name whole. -/
theorem claim_c3_amended_print_padding (h : Har) :
    (∀ nf : String, ∀ sz : Int, Line.row nf sz ∈ (report h).output →
        45 ≤ nf.length ∧ nf.length ≤ 50) ∧
    (∀ nf : String, ∀ sz : Int, Line.gfRow nf sz ∈ (report h).output →
        75 ≤ nf.length ∧ nf.length ≤ 80) ∧
    (∀ w : Nat, ∀ s : String,
        (padTo w s).length = max w s.length ∧
        (padTo w s).data.take s.data.length = s.data) := by
  refine ⟨?_, ?_, fun w s => ⟨padTo_length w s, padTo_take w s⟩⟩
  · intro nf sz hmem
    obtain ⟨p, hp, hnf, _⟩ := row_mem_output hmem
    have hlen := primary_bucket_name_length hp
    rw [hnf, padTo_length]
    omega
  · intro nf sz hmem
    obtain ⟨p, hp, hnf, _⟩ := gfRow_mem_output hmem
    have hlen := gf_bucket_name_length hp
    rw [hnf, padTo_length]
    omega

/-- Witness for the amended claim C3 at the long-named document: the
printed name field of its one JavaScript row is between 45 and 50
characters. -/
theorem claim_c3_amended_print_padding_witness :
    45 ≤ ("aaaaaaaaaaaaaaaaaaaaaaaaaaaaaaaaaaaaaaaaaaaaaaaaaa" : String).length ∧
    ("aaaaaaaaaaaaaaaaaaaaaaaaaaaaaaaaaaaaaaaaaaaaaaaaaa" : String).length ≤ 50 :=
  (claim_c3_amended_print_padding harLongName).1
    "aaaaaaaaaaaaaaaaaaaaaaaaaaaaaaaaaaaaaaaaaaaaaaaaaa" 7168 (by decide)

/-- Claim C5: with an empty `log.pages` the run fails with the index
error exactly at the page-metrics section: the error is uncaught, every
earlier section (header banner, total size, the three bucket sections,
the Google-Fonts section when non-empty, the font-format counts) is
already in the flushed output, and no metric line was printed. -/
theorem claim_c5_empty_pages_failure (h : Har) (hp : h.log.pages = []) :
    (report h).error = some RunError.indexError ∧
    (report h).output = preMetricsOutput h ∧
    Line.banner "🔍 HAR File Performance Analysis" ∈ (report h).output ∧
    Line.totalLine (analyze h).total_size ∈ (report h).output ∧
    Line.sectionHeader "JavaScript Files" (analyze h).js_files.length
        (sumSizes (analyze h).js_files) ∈ (report h).output ∧
    Line.sectionHeader "CSS Files" (analyze h).css_files.length
        (sumSizes (analyze h).css_files) ∈ (report h).output ∧
    Line.sectionHeader "Font Files" (analyze h).font_files.length
        (sumSizes (analyze h).font_files) ∈ (report h).output ∧
    ((analyze h).google_fonts ≠ [] →
        Line.gfHeader (analyze h).google_fonts.length ∈ (report h).output) ∧
    Line.countLine "WOFF2 files" (woff2Count (analyze h).font_files) ∈ (report h).output ∧
    Line.countLine "TTF files" (ttfCount (analyze h).font_files) ∈ (report h).output ∧
    Line.metricsHeader ∉ (report h).output ∧
    (∀ label : String, ∀ m : Int, Line.metricLine label m ∉ (report h).output) := by
  have hrep : report h = ⟨preMetricsOutput h, some RunError.indexError⟩ := by
    unfold report
    rw [hp]
  rw [hrep]
  refine ⟨rfl, rfl, ?_, ?_, ?_, ?_, ?_, ?_, ?_, ?_, ?_, ?_⟩ <;>
    unfold preMetricsOutput
  · simp
  · simp
  · simp
  · simp
  · simp
  · intro hne
    have hemp : (analyze h).google_fonts.isEmpty = false := by
      rcases hgf : (analyze h).google_fonts with _ | ⟨p, l⟩
      · exact absurd hgf hne
      · rfl
    simp [hemp]
  · simp
  · simp
  · simp
    refine ⟨?_, ?_, ?_⟩
    · intro hmem
      obtain ⟨p, -, heq⟩ := List.mem_map.1 (List.take_subset _ _ hmem)
      exact absurd heq (by simp)
    · intro hmem
      obtain ⟨p, -, heq⟩ := List.mem_map.1 (List.take_subset _ _ hmem)
      exact absurd heq (by simp)
    · intro hne hmem
      obtain ⟨p, -, heq⟩ := List.mem_map.1 (List.take_subset _ _ hmem)
      exact absurd heq (by simp)
  · intro label m
    simp
    refine ⟨?_, ?_, ?_⟩
    · intro hmem
      obtain ⟨p, -, heq⟩ := List.mem_map.1 (List.take_subset _ _ hmem)
      exact absurd heq (by simp)
    · intro hmem
      obtain ⟨p, -, heq⟩ := List.mem_map.1 (List.take_subset _ _ hmem)
      exact absurd heq (by simp)
    · intro hne hmem
      obtain ⟨p, -, heq⟩ := List.mem_map.1 (List.take_subset _ _ hmem)
      exact absurd heq (by simp)

/-- Witness for claim C5 at a concrete document with no pages: the run
errors with the index error and the earlier sections are in the output. -/
theorem claim_c5_empty_pages_failure_witness :
    (report harNoPages).error = some RunError.indexError ∧
    Line.banner "🔍 HAR File Performance Analysis" ∈ (report harNoPages).output :=
  ⟨(claim_c5_empty_pages_failure harNoPages rfl).1,
   (claim_c5_empty_pages_failure harNoPages rfl).2.2.1⟩

/-- Claim C6 counterexample: when `pages[0]` exists but has no
`pageTimings` key, the run does fail with the missing-key error
(`page['pageTimings']` is a required-key access), contradicting the
claim that `pageTimings` is optional input. -/
theorem claim_c6_counterexample :
    (report harNoTimings).error = some RunError.keyError ∧
    (report harNoTimings).error ≠ none := by decide

/-- Claim C6 amended: `pageTimings` is a required key of `pages[0]`:
its absence aborts the run with a missing-key error; only the fields
`onContentLoad` and `onLoad` inside it are optional, defaulting to 0,
and with `pageTimings` present both timing lines print and the run
finishes without error. -/
theorem claim_c6_amended_pageTimings_required (h : Har) (page : Page)
    (rest : List Page) (hp : h.log.pages = page :: rest) :
    (page.pageTimings = none → (report h).error = some RunError.keyError) ∧
    (∀ t : PageTimings, page.pageTimings = some t →
      (report h).error = none ∧
      Line.metricLine "DOM Content Loaded" (t.onContentLoad.getD 0) ∈ (report h).output ∧
      Line.metricLine "Page Load Complete" (t.onLoad.getD 0) ∈ (report h).output) := by
  constructor
  · intro ht
    simp [report, hp, ht]
  · intro t ht
    refine ⟨by simp [report, hp, ht], by simp [report, hp, ht], by simp [report, hp, ht]⟩

/-- Witness for the amended claim C6 at concrete documents: a missing
`pageTimings` aborts with the key error; a present one prints both
timing lines and ends the run without error. -/
theorem claim_c6_amended_pageTimings_required_witness :
    (report harNoTimings).error = some RunError.keyError ∧
    (report harSample1).error = none ∧
    Line.metricLine "DOM Content Loaded" 1200 ∈ (report harSample1).output := by
  have h1 := (claim_c6_amended_pageTimings_required harNoTimings
    { pageTimings := none } [] rfl).1 rfl
  have h2 := (claim_c6_amended_pageTimings_required harSample1
    pageWithTimings [] rfl).2 { onContentLoad := some 1200, onLoad := some 2400 } rfl
  exact ⟨h1, h2.1, h2.2.1⟩


/-- Claim C9: the Google-Fonts bucket is never sorted — it keeps the
original capture (entry) order of the `filterMap` over the entries —
and the Google-Fonts section prints exactly its first five elements in
that order. -/
theorem claim_c9_gf_capture_order (h : Har) :
    (analyze h).google_fonts = h.log.entries.filterMap gfItem ∧
    (report h).output.filterMap gfRowData
      = ((h.log.entries.filterMap gfItem).take 5).map (fun p => (padTo 75 p.1, p.2)) := by
  have hgf : (analyze h).google_fonts = h.log.entries.filterMap gfItem := by
    simp [analyze, collect_eq]
  refine ⟨hgf, ?_⟩
  have hrow_none : ∀ (f : String × Int → Line),
      (∀ p, gfRowData (f p) = none) →
      ∀ (l2 : List (String × Int)), (l2.map f).filterMap gfRowData = [] := by
    intro f hf l2
    induction l2 with
    | nil => rfl
    | cons p t ih =>
      rw [List.map_cons, List.filterMap_cons_none (hf p), ih]
  have hgfmap : ∀ (l2 : List (String × Int)),
      (l2.map (fun p => Line.gfRow (padTo 75 p.1) p.2)).filterMap gfRowData
        = l2.map (fun p => (padTo 75 p.1, p.2)) := by
    intro l2
    induction l2 with
    | nil => rfl
    | cons p t ih =>
      rw [List.map_cons,
          List.filterMap_cons_some
            (show gfRowData (Line.gfRow (padTo 75 p.1) p.2) = some (padTo 75 p.1, p.2) from rfl),
          ih, List.map_cons]
  have hpre : (preMetricsOutput h).filterMap gfRowData
      = ((h.log.entries.filterMap gfItem).take 5).map (fun p => (padTo 75 p.1, p.2)) := by
    unfold preMetricsOutput
    rw [← hgf]
    simp only [List.filterMap_append]
    rw [hrow_none (fun p => Line.row (padTo 45 p.1) p.2) (fun p => rfl)
          ((analyze h).js_files.take 10),
        hrow_none (fun p => Line.row (padTo 45 p.1) p.2) (fun p => rfl)
          ((analyze h).css_files.take 5),
        hrow_none (fun p => Line.row (padTo 45 p.1) p.2) (fun p => rfl)
          (analyze h).font_files]
    rcases (analyze h).google_fonts with _ | ⟨p, l⟩
    · simp only [List.filterMap_append, List.filterMap_cons, List.filterMap_nil, gfRowData,
                 List.nil_append, List.append_nil, List.isEmpty_nil, eq_self_iff_true,
                 if_true, List.take_nil, List.map_nil]
    · rw [if_neg (by simp)]
      simp only [List.filterMap_append, List.filterMap_cons, List.filterMap_nil, gfRowData,
                 List.nil_append, List.append_nil]
      rw [hgfmap ((p :: l).take 5)]
  rcases report_output_split h with hout | ⟨t, hout⟩ <;> rw [hout]
  · exact hpre
  · rw [List.filterMap_append, hpre]
    simp [gfRowData]

/-- Witness for claim C9 at a concrete document with one
Google-Fonts-only entry. -/
theorem claim_c9_gf_capture_order_witness :
    (analyze harGfOnly).google_fonts = harGfOnly.log.entries.filterMap gfItem ∧
    (report harGfOnly).output.filterMap gfRowData
      = ((harGfOnly.log.entries.filterMap gfItem).take 5).map (fun p => (padTo 75 p.1, p.2)) ∧
    (analyze harGfOnly).google_fonts ≠ [] :=
  ⟨(claim_c9_gf_capture_order harGfOnly).1,
   (claim_c9_gf_capture_order harGfOnly).2, by decide⟩

